import Mathlib

/-!
Verification of the tensorforce optimization core against its specification.

Shallow embedding: tensors are lists of rationals, named tensor collections
are lists, TensorFlow graph construction (for scheduling claims) is modelled
as explicit state passing over a graph of nodes with dependency edges, and
Python exceptions are explicit error values.
-/

set_option maxRecDepth 4000

/-! ## Basic tensor model -/

/-- A tensor is modelled as a flat list of rational entries. -/
abbrev Tensor := List ℚ

/-- Element-wise tensor addition (`delta1 + delta2` in TensorFlow). -/
def tensorAdd (t1 t2 : Tensor) : Tensor := List.zipWith (· + ·) t1 t2

/-! ## Plus optimizer, value semantics (`tensorforce/core/optimizers/plus.py`)

`Plus.step` invokes `optimizer1.step`, then `optimizer2.step`, and returns
`[delta1 + delta2 for delta1, delta2 in zip(deltas1, deltas2)]`.
A sub-optimizer's step is modelled as a function from the arguments bundle
to its list of delta tensors, one per variable. -/

def plus_step {α : Type} (step1 step2 : α → List Tensor) (arguments : α) :
    List Tensor :=
  let deltas1 := step1 arguments
  let deltas2 := step2 arguments
  List.zipWith tensorAdd deltas1 deltas2

/-! ## TRPO agent configuration (`tensorforce/agents/trpo.py`) -/

/-- The inner `{type: natural_gradient, ...}` optimizer specification dict. -/
structure NaturalGradientSpec where
  type : String
  learning_rate : ℚ
  cg_max_iterations : ℕ
  cg_damping : ℚ
deriving Repr, DecidableEq

/-- The outer `{type: optimized_step, optimizer: <inner>, ...}` specification
dict. -/
structure OptimizedStepSpec where
  type : String
  optimizer : NaturalGradientSpec
  ls_max_iterations : ℕ
  ls_accept_ratio : ℚ
  ls_mode : String
  ls_parameter : ℚ
deriving Repr, DecidableEq

/-- The `{type: policy_gradient, ratio_based, clipping_value}` objective
specification dict. -/
structure PolicyGradientSpec where
  type : String
  ratio_based : Bool
  clipping_value : ℚ
deriving Repr, DecidableEq

/-- Optimizer and objective specifications built by
`TrustRegionPolicyOptimization.__init__`. -/
structure TrpoSpecs where
  optimizer : OptimizedStepSpec
  objective : PolicyGradientSpec
deriving Repr, DecidableEq

/-- The optimizer/objective construction of
`TrustRegionPolicyOptimization.__init__` (trpo.py lines 51-62): a
`natural_gradient` dict with `cg_max_iterations=10`, `cg_damping=1e-3`
wrapped in an `optimized_step` dict with `ls_max_iterations=10`,
`ls_accept_ratio=0.9`, `ls_mode='exponential'`, `ls_parameter=0.5`, and a
`policy_gradient` objective with `ratio_based=True` and
`clipping_value=likelihood_ratio_clipping`. -/
def trpo_init (learning_rate likelihood_ratio_clipping : ℚ) : TrpoSpecs :=
  let optimizer : NaturalGradientSpec :=
    ⟨"natural_gradient", learning_rate, 10, 1/1000⟩
  let optimizer2 : OptimizedStepSpec :=
    ⟨"optimized_step", optimizer, 10, 9/10, "exponential", 1/2⟩
  let objective : PolicyGradientSpec :=
    ⟨"policy_gradient", true, likelihood_ratio_clipping⟩
  ⟨optimizer2, objective⟩

/-! ## Model loss (`tensorforce/models/model.py`, `tf_loss`) -/

/-- `tf.reduce_mean` over the batch axis of a rank-1 tensor. -/
def reduce_mean (xs : List ℚ) : ℚ := xs.sum / (xs.length : ℚ)

/-- `tf.add_n`: sum of a list of (scalar) tensors. -/
def add_n (xs : List ℚ) : ℚ := xs.sum

/-- `Model.tf_loss`: mean of the per-instance loss over the batch axis,
plus `tf.add_n` of the regularization losses when the regularization-loss
dict is non-empty (model.py lines 392-401). The per-instance losses and
the regularization-loss dict values are passed in as the results of the
`fn_loss_per_instance` and `fn_regularization_losses` callbacks. -/
def tf_loss (loss_per_instance : List ℚ) (regularization_losses : List ℚ) :
    ℚ :=
  let loss := reduce_mean loss_per_instance
  if 0 < regularization_losses.length then loss + add_n regularization_losses
  else loss

/-! ## Reward normalization (`tensorforce/models/model.py`, `get_reward`) -/

/-- `tf.nn.moments(x, axes=0)`: batch mean and (biased) batch variance. -/
def moments (xs : List ℚ) : ℚ × ℚ :=
  let mean := xs.sum / (xs.length : ℚ)
  (mean, (xs.map (fun x => (x - mean) ^ 2)).sum / (xs.length : ℚ))

/-- `Model.get_reward` (model.py lines 292-297): when `normalize_rewards`
is set, returns `(reward - mean) / tf.maximum(variance, util.epsilon)`
element-wise; otherwise returns the reward tensor unchanged. -/
def get_reward (normalize_rewards : Bool) (epsilon : ℚ) (reward : List ℚ) :
    List ℚ :=
  if normalize_rewards then
    let (mean, variance) := moments reward
    reward.map (fun r => (r - mean) / max variance epsilon)
  else
    reward

/-- Batch mean, stated as in the specification. -/
def batchMean (xs : List ℚ) : ℚ := xs.sum / (xs.length : ℚ)

/-- Biased batch variance, stated as in the specification. -/
def batchVariance (xs : List ℚ) : ℚ :=
  (xs.map (fun x => (x - batchMean xs) ^ 2)).sum / (xs.length : ℚ)

/-! ## Discounted cumulative reward
(`tensorforce/models/model.py`, `tf_discounted_cumulative_reward`) -/

/-- The `fn_scan` closure of `Model.tf_discounted_cumulative_reward`
(model.py lines 315-321): on a terminal step return the raw reward, else
`reward + cumulative * discount`. -/
def fn_scan (discount : ℚ) (cumulative : ℚ)
    (reward_and_terminal : ℚ × Bool) : ℚ :=
  if reward_and_terminal.2 then reward_and_terminal.1
  else reward_and_terminal.1 + cumulative * discount

/-- `tf.scan` over a rank-1 elems tensor: element `i` of the output is the
accumulator after folding the first `i+1` elements, starting from the
initializer. -/
def tf_scan (f : ℚ → ℚ × Bool → ℚ) (initializer : ℚ) :
    List (ℚ × Bool) → List ℚ
  | [] => []
  | x :: xs => f initializer x :: tf_scan f (f initializer x) xs

/-- `Model.tf_discounted_cumulative_reward` (model.py lines 299-326):
reverse the reward and terminal tensors, `tf.scan` with `fn_scan` from
`final_reward`, and reverse the result. -/
def tf_discounted_cumulative_reward (reward : List ℚ) (terminal : List Bool)
    (discount : ℚ) (final_reward : ℚ) : List ℚ :=
  (tf_scan (fn_scan discount) final_reward
    (reward.reverse.zip terminal.reverse)).reverse

/-- The claimed backward recurrence: `R_i = r_i` when `t_i` holds, and
`R_i = r_i + discount * R_(i+1)` otherwise, seeded with
`R_n = final_reward`. -/
def discountedSpec (discount final_reward : ℚ) :
    List (ℚ × Bool) → List ℚ
  | [] => []
  | (r, t) :: rest =>
    (if t then r
     else r + discount *
       (discountedSpec discount final_reward rest).headD final_reward) ::
      discountedSpec discount final_reward rest

/-! ## Python error model -/

/-- Error kinds raised by the embedded code: `NotImplementedError`,
`AssertionError`, `TensorforceError.value(name, argument)` (a configuration
error), and a generic numerical/runtime computation failure. They are
distinct constructors, hence distinguishable by the caller. -/
inductive TfError
  | notImplemented
  | assertionError
  | valueError (name : String) (argument : String)
  | numericalError
deriving Repr, DecidableEq

/-! ## Distribution base class
(`tensorforce/core/distributions/distribution.py`) -/

/-- The fragment of a tensor specification the embedded code inspects:
its declared type string (`'bool'`, `'int'`, `'float'`, ...). -/
structure TensorSpec where
  type : String
deriving Repr, DecidableEq

/-- Parent-module state produced by `Module.__init__`. -/
structure ModuleState where
  l2_regularization : ℚ
deriving Repr, DecidableEq

/-- `Module.__init__` (the parent-module initialization): appends an
initialization event to the log and returns the module state. No tensor
operation is represented because none executes during construction. -/
def module_init (log : List String) : List String × ModuleState :=
  (log ++ ["module_init"], ⟨0⟩)

/-- The state of a constructed `Distribution`. -/
structure DistributionState where
  module : ModuleState
  action_spec : TensorSpec
  input_spec : TensorSpec
  parameters_spec : TensorSpec
deriving Repr, DecidableEq

/-- `Distribution.__init__` (distribution.py lines 32-41): first
`assert input_spec.type == 'float'`, then `super().__init__(...)`, then
store the specs. The event log records whether the parent-module
initialization ran. -/
def distribution_init (action_spec input_spec parameters_spec : TensorSpec)
    (log : List String) :
    List String × Except TfError DistributionState :=
  if input_spec.type = "float" then
    let (log2, m) := module_init log
    (log2, Except.ok ⟨m, action_spec, input_spec, parameters_spec⟩)
  else
    (log, Except.error TfError.assertionError)

/-- `Distribution.parametrize` base implementation: `raise NotImplementedError`. -/
def Distribution.parametrize (_x : Tensor) : Except TfError Tensor :=
  Except.error TfError.notImplemented

/-- `Distribution.sample` base implementation: `raise NotImplementedError`. -/
def Distribution.sample (_parameters : Tensor) (_temperature : ℚ) :
    Except TfError Tensor :=
  Except.error TfError.notImplemented

/-- `Distribution.log_probability` base implementation:
`raise NotImplementedError`. -/
def Distribution.log_probability (_parameters _action : Tensor) :
    Except TfError Tensor :=
  Except.error TfError.notImplemented

/-- `Distribution.entropy` base implementation: `raise NotImplementedError`. -/
def Distribution.entropy (_parameters : Tensor) : Except TfError Tensor :=
  Except.error TfError.notImplemented

/-- `Distribution.kl_divergence` base implementation:
`raise NotImplementedError`. -/
def Distribution.kl_divergence (_parameters1 _parameters2 : Tensor) :
    Except TfError Tensor :=
  Except.error TfError.notImplemented

/-- `Distribution.states_value` base implementation:
`raise NotImplementedError`. -/
def Distribution.states_value (_parameters : Tensor) : Except TfError Tensor :=
  Except.error TfError.notImplemented

/-- `Distribution.action_value` base implementation:
`raise NotImplementedError`. -/
def Distribution.action_value (_parameters _action : Tensor) :
    Except TfError Tensor :=
  Except.error TfError.notImplemented

/-! ## InternalRnn layer (`tensorforce/core/layers/internal_rnn.py`) -/

/-- The Keras recurrent cell chosen by `InternalRnn.__init__`. -/
inductive KerasCell
  | gruCell (units : ℕ)
  | lstmCell (units : ℕ)
deriving Repr, DecidableEq

/-- The state of a constructed `InternalRnn` layer. -/
structure InternalRnnState where
  cell_type : String
  cell : KerasCell
deriving Repr, DecidableEq

/-- `InternalRnn.__init__` (internal_rnn.py lines 55-78): after the parent
initialization, stores `cell_type = cell` and constructs a `GRUCell` for
`'gru'`, an `LSTMCell` for `'lstm'`, and otherwise raises
`TensorforceError.value(name='Rnn', argument='cell', ...)`. -/
def internal_rnn_init (cell : String) (size : ℕ) :
    Except TfError InternalRnnState :=
  if cell = "gru" then
    Except.ok ⟨cell, KerasCell.gruCell size⟩
  else if cell = "lstm" then
    Except.ok ⟨cell, KerasCell.lstmCell size⟩
  else
    Except.error (TfError.valueError "Rnn" "cell")

/-! ## ConstantModel (`tensorforce/core/models/constant.py`) -/

/-- The fragment of an action specification `core_act` inspects. -/
structure ActionSpec where
  type : String
  min_value : Option ℚ
  max_value : Option ℚ
  num_values : Option ℕ
deriving Repr, DecidableEq

/-- The per-action result of `ConstantModel.core_act`: a tensor filled with
a constant value, a zeros tensor, or the first-unmasked-action choice of
the int-masking branch (whose value depends on the mask). -/
inductive ActResult
  | fill (value : ℚ)
  | zeros
  | maskedChoice
deriving Repr, DecidableEq

/-- The batch tensor an `ActResult` denotes for batch size `n`:
`tf.fill`/`tf_util.zeros` produce a constant batch; the masked choice is
left undetermined (`none`) since it depends on the mask contents. -/
def ActResult.toBatch (n : ℕ) : ActResult → Option (List ℚ)
  | ActResult.fill v => some (List.replicate n v)
  | ActResult.zeros => some (List.replicate n 0)
  | ActResult.maskedChoice => none

/-- `ConstantModel.core_act` branch structure for one action
(constant.py lines 67-114): a user-specified `action_values` entry wins;
else with int-action masking enabled, an `int` action with `num_values`
takes the first unmasked action; else for non-`bool` actions with a
`min_value`, the midpoint when `max_value` is also given, otherwise
`min_value`; else for non-`bool` actions with a `max_value`, `max_value`;
else zeros. -/
def core_act_action (enable_int_action_masking : Bool)
    (action_value : Option ℚ) (spec : ActionSpec) : ActResult :=
  match action_value with
  | some v => ActResult.fill v
  | none =>
    if enable_int_action_masking = true ∧ spec.type = "int" ∧
        spec.num_values.isSome then
      ActResult.maskedChoice
    else if spec.type ≠ "bool" ∧ spec.min_value.isSome then
      match spec.max_value with
      | some mx => ActResult.fill
          (spec.min_value.getD 0 + (1/2) * (mx - spec.min_value.getD 0))
      | none => ActResult.fill (spec.min_value.getD 0)
    else if spec.type ≠ "bool" ∧ spec.max_value.isSome then
      ActResult.fill (spec.max_value.getD 0)
    else
      ActResult.zeros

/-- `ConstantModel.core_observe` (constant.py lines 118-120): returns the
constant `False`, i.e. never reports an update. -/
def core_observe : Bool := false

/-! ## Plus optimizer, graph-scheduling semantics
(`tensorforce/core/optimizers/plus.py`, `Plus.step`)

TensorFlow graph construction is modelled as explicit state passing: a
graph state holds the ops created so far (each with its dependency edges)
and the ambient `tf.control_dependencies` context. Creating an op records
the ambient context in the op's dependencies; `tf.control_dependencies`
extends the context for the ops created under it and restores it after. -/

/-- A graph op: its identifier and the identifiers it depends on (data
inputs and control dependencies). -/
structure GraphNode where
  id : ℕ
  deps : List ℕ
deriving Repr, DecidableEq

/-- TensorFlow graph-construction state: next fresh op id, ops created so
far, and the ambient control-dependency context. -/
structure GraphState where
  nextId : ℕ
  nodes : List GraphNode
  ctrl : List ℕ
deriving Repr, DecidableEq

/-- Create one op with the given data inputs; the ambient
control-dependency context is recorded among its dependencies. -/
def mkOp (inputs : List ℕ) (s : GraphState) : ℕ × GraphState :=
  (s.nextId,
   ⟨s.nextId + 1, s.nodes ++ [⟨s.nextId, s.ctrl ++ inputs⟩], s.ctrl⟩)

/-- A sub-optimizer's `step`, seen as a graph builder: it creates ops and
returns the ids of its delta tensors. -/
abbrev SubOptimizer := GraphState → List ℕ × GraphState

/-- `tf.control_dependencies(control_inputs=...)`: run a builder with the
control context extended by the given ids, then restore the context. -/
def withControlDeps (control_inputs : List ℕ) (f : SubOptimizer)
    (s : GraphState) : List ℕ × GraphState :=
  let r := f { s with ctrl := s.ctrl ++ control_inputs }
  (r.1, { r.2 with ctrl := s.ctrl })

/-- The list comprehension `[delta1 + delta2 for ... in zip(deltas1,
deltas2)]`: one addition op per variable, whose data inputs are the two
deltas. -/
def addPairs : List (ℕ × ℕ) → GraphState → List ℕ × GraphState
  | [], s => ([], s)
  | p :: ps, s =>
    let r := mkOp [p.1, p.2] s
    let rs := addPairs ps r.2
    (r.1 :: rs.1, rs.2)

/-- `Plus.step` as a graph builder (plus.py lines 57-65): invoke
`optimizer1.step`, then under `tf.control_dependencies(deltas1)` invoke
`optimizer2.step`, then under `tf.control_dependencies(deltas2)` create
the per-variable sums. -/
def plus_step_graph (optimizer1 optimizer2 : SubOptimizer) : SubOptimizer :=
  fun s =>
    let r1 := optimizer1 s
    let r2 := withControlDeps r1.1 optimizer2 r1.2
    withControlDeps r2.1 (addPairs (r1.1.zip r2.1)) r2.2

/-- A well-behaved graph builder (every TensorFlow-op-based sub-optimizer
step): it only appends ops, every op it creates carries the ambient
control-dependency context in its dependencies, its outputs are ids of ops
it created, and it restores the control context. -/
def Builds (opt : SubOptimizer) : Prop :=
  ∀ s out s2, opt s = (out, s2) →
    ∃ created, s2.nodes = s.nodes ++ created ∧
      (∀ n ∈ created, s.ctrl ⊆ n.deps) ∧
      (∀ a ∈ out, ∃ n ∈ created, n.id = a) ∧
      s2.ctrl = s.ctrl

/-- A valid execution schedule of a graph: a linear order (by position)
containing every op, in which every op runs strictly after each of its
dependencies. -/
def ValidSchedule (nodes : List GraphNode) (sched : List ℕ) : Prop :=
  (∀ n ∈ nodes, n.id ∈ sched) ∧
  (∀ n ∈ nodes, ∀ d ∈ n.deps, d ∈ sched →
    sched.indexOf d < sched.indexOf n.id)

/-- A deterministic stub sub-optimizer: creates one delta op with no data
inputs and returns it. -/
def stubOptimizer : SubOptimizer := fun s =>
  let r := mkOp [] s
  ([r.1], r.2)

/-! ## Theorems -/

/-- C1: for sub-optimizer steps returning deltas `d1` and `d2` with one
tensor per variable in identical order (equal list lengths), `Plus.step`
returns one tensor per variable, the element-wise sum `d1 + d2`. -/
theorem plus_step_additive {α : Type} (step1 step2 : α → List Tensor)
    (arguments : α)
    (hlen : (step1 arguments).length = (step2 arguments).length) :
    (plus_step step1 step2 arguments).length = (step1 arguments).length ∧
    ∀ (i : ℕ) (h1 : i < (step1 arguments).length)
      (h2 : i < (step2 arguments).length),
      (plus_step step1 step2 arguments).getD i [] =
        tensorAdd ((step1 arguments).get ⟨i, h1⟩)
          ((step2 arguments).get ⟨i, h2⟩) := by
  constructor
  · simp [plus_step, List.length_zipWith, hlen]
  · intro i h1 h2
    have hp : i < (plus_step step1 step2 arguments).length := by
      simp [plus_step, List.length_zipWith, hlen]
      omega
    rw [List.getD_eq_getElem _ _ hp]
    simp [plus_step, List.get_eq_getElem]

/-- Witness for C1 at concrete stub optimizers: `d1 = [[1,2],[3]]`,
`d2 = [[4,5],[6]]`, sum `[[5,7],[9]]`. -/
theorem plus_step_additive_witness :
    (plus_step (fun _ => [[(1 : ℚ), 2], [3]])
      (fun _ => [[(4 : ℚ), 5], [6]]) ()).length = 2 ∧
    ∀ (i : ℕ) (h1 : i < ([[(1 : ℚ), 2], [3]] : List Tensor).length)
      (h2 : i < ([[(4 : ℚ), 5], [6]] : List Tensor).length),
      (plus_step (fun _ => [[(1 : ℚ), 2], [3]])
        (fun _ => [[(4 : ℚ), 5], [6]]) ()).getD i [] =
        tensorAdd (([[(1 : ℚ), 2], [3]] : List Tensor).get ⟨i, h1⟩)
          (([[(4 : ℚ), 5], [6]] : List Tensor).get ⟨i, h2⟩) :=
  plus_step_additive (fun _ => [[(1 : ℚ), 2], [3]])
    (fun _ => [[(4 : ℚ), 5], [6]]) () rfl

/-- C3: `TrustRegionPolicyOptimization.__init__` always builds the optimizer
specification tree `{type: natural_gradient, learning_rate: <given>,
cg_max_iterations: 10, cg_damping: 1e-3}` wrapped in
`{type: optimized_step, optimizer: <the above>, ls_max_iterations: 10,
ls_accept_ratio: 0.9, ls_mode: 'exponential', ls_parameter: 0.5}`, together
with a ratio-based `policy_gradient` objective whose `clipping_value` is the
`likelihood_ratio_clipping` argument. -/
theorem trpo_init_spec_tree (learning_rate likelihood_ratio_clipping : ℚ) :
    (trpo_init learning_rate likelihood_ratio_clipping).optimizer =
      ⟨"optimized_step",
        ⟨"natural_gradient", learning_rate, 10, 1/1000⟩,
        10, 9/10, "exponential", 1/2⟩ ∧
    (trpo_init learning_rate likelihood_ratio_clipping).objective =
      ⟨"policy_gradient", true, likelihood_ratio_clipping⟩ := by
  exact ⟨rfl, rfl⟩

/-- C7: `Model.tf_loss` equals the batch mean of the per-instance loss plus
the sum of all regularization losses when any exist, and exactly the batch
mean when there are none. -/
theorem tf_loss_mean_plus_regularization (loss_per_instance : List ℚ)
    (regularization_losses : List ℚ) :
    (regularization_losses ≠ [] →
      tf_loss loss_per_instance regularization_losses =
        loss_per_instance.sum / (loss_per_instance.length : ℚ) +
          regularization_losses.sum) ∧
    (regularization_losses = [] →
      tf_loss loss_per_instance regularization_losses =
        loss_per_instance.sum / (loss_per_instance.length : ℚ)) := by
  constructor
  · intro h
    have hl : 0 < regularization_losses.length := List.length_pos.mpr h
    simp [tf_loss, reduce_mean, add_n, hl]
  · intro h
    subst h
    simp [tf_loss, reduce_mean]

/-- Witness for C7 at `loss_per_instance = [1, 3]`: with regularization
losses `[2]` the loss is `(1+3)/2 + 2 = 4`; with none it is `2`. -/
theorem tf_loss_mean_plus_regularization_witness :
    tf_loss [1, 3] [2] = (4 : ℚ) ∧ tf_loss [1, 3] [] = (2 : ℚ) := by
  constructor
  · rw [(tf_loss_mean_plus_regularization [1, 3] [2]).1 (by decide)]
    norm_num
  · rw [(tf_loss_mean_plus_regularization [1, 3] []).2 rfl]
    norm_num

/-- C4: constructing a `Distribution` with an `input_spec` whose declared
type is not `'float'` fails with an `AssertionError` during construction,
before any tensor operation executes and before any parent-module
initialization (the event log is unchanged: `module_init` never ran); for
an `input_spec` of type `'float'` the construction proceeds (parent module
initialized, state returned). -/
theorem distribution_init_requires_float
    (action_spec input_spec parameters_spec : TensorSpec)
    (log : List String) :
    (input_spec.type ≠ "float" →
      distribution_init action_spec input_spec parameters_spec log =
        (log, Except.error TfError.assertionError)) ∧
    (input_spec.type = "float" →
      distribution_init action_spec input_spec parameters_spec log =
        (log ++ ["module_init"],
          Except.ok ⟨⟨0⟩, action_spec, input_spec, parameters_spec⟩)) := by
  constructor
  · intro h
    simp [distribution_init, h]
  · intro h
    simp [distribution_init, h, module_init]

/-- Witness for C4: an `'int'` input spec is rejected with an assertion
error and an untouched log; a `'float'` input spec constructs the state. -/
theorem distribution_init_requires_float_witness :
    distribution_init ⟨"float"⟩ ⟨"int"⟩ ⟨"float"⟩ [] =
      ([], Except.error TfError.assertionError) ∧
    distribution_init ⟨"float"⟩ ⟨"float"⟩ ⟨"float"⟩ [] =
      (["module_init"], Except.ok ⟨⟨0⟩, ⟨"float"⟩, ⟨"float"⟩, ⟨"float"⟩⟩) :=
  ⟨(distribution_init_requires_float ⟨"float"⟩ ⟨"int"⟩ ⟨"float"⟩ []).1
      (by decide),
   (distribution_init_requires_float ⟨"float"⟩ ⟨"float"⟩ ⟨"float"⟩ []).2 rfl⟩

/-- C5: every capability method of the `Distribution` base interface
(`parametrize`, `sample`, `log_probability`, `entropy`, `kl_divergence`,
`states_value`, `action_value`) that a variant does not override raises
`NotImplementedError`, an error kind distinct from an assertion failure, a
configuration value error, and a numerical computation failure. -/
theorem distribution_unimplemented_methods :
    (∀ x, Distribution.parametrize x = Except.error TfError.notImplemented) ∧
    (∀ p t, Distribution.sample p t = Except.error TfError.notImplemented) ∧
    (∀ p a, Distribution.log_probability p a =
      Except.error TfError.notImplemented) ∧
    (∀ p, Distribution.entropy p = Except.error TfError.notImplemented) ∧
    (∀ p q, Distribution.kl_divergence p q =
      Except.error TfError.notImplemented) ∧
    (∀ p, Distribution.states_value p =
      Except.error TfError.notImplemented) ∧
    (∀ p a, Distribution.action_value p a =
      Except.error TfError.notImplemented) ∧
    TfError.notImplemented ≠ TfError.numericalError ∧
    TfError.notImplemented ≠ TfError.assertionError ∧
    ∀ n arg, TfError.notImplemented ≠ TfError.valueError n arg := by
  refine ⟨fun _ => rfl, fun _ _ => rfl, fun _ _ => rfl, fun _ => rfl,
    fun _ _ => rfl, fun _ => rfl, fun _ _ => rfl, by decide, by decide,
    fun n arg h => by cases h⟩

/-- C6: constructing an `InternalRnn` layer with a `cell` argument other
than `'gru'` or `'lstm'` raises the fatal configuration error
`TensorforceError.value(name='Rnn', argument='cell')` at construction time;
for `'gru'` construction succeeds with a `GRUCell` and for `'lstm'` with an
`LSTMCell` of the layer's size. -/
theorem internal_rnn_init_cell_validation (cell : String) (size : ℕ) :
    (cell ≠ "gru" → cell ≠ "lstm" →
      internal_rnn_init cell size =
        Except.error (TfError.valueError "Rnn" "cell")) ∧
    (cell = "gru" →
      internal_rnn_init cell size =
        Except.ok ⟨cell, KerasCell.gruCell size⟩) ∧
    (cell = "lstm" →
      internal_rnn_init cell size =
        Except.ok ⟨cell, KerasCell.lstmCell size⟩) := by
  refine ⟨fun h1 h2 => ?_, fun h => ?_, fun h => ?_⟩
  · simp [internal_rnn_init, h1, h2]
  · simp [internal_rnn_init, h]
  · subst h
    simp [internal_rnn_init]

/-- Witness for C6: `cell='rnn'` is rejected with the configuration error;
`'gru'` and `'lstm'` construct the corresponding Keras cell. -/
theorem internal_rnn_init_cell_validation_witness :
    internal_rnn_init "rnn" 4 =
      Except.error (TfError.valueError "Rnn" "cell") ∧
    internal_rnn_init "gru" 4 = Except.ok ⟨"gru", KerasCell.gruCell 4⟩ ∧
    internal_rnn_init "lstm" 4 = Except.ok ⟨"lstm", KerasCell.lstmCell 4⟩ :=
  ⟨(internal_rnn_init_cell_validation "rnn" 4).1 (by decide) (by decide),
   (internal_rnn_init_cell_validation "gru" 4).2.1 rfl,
   (internal_rnn_init_cell_validation "lstm" 4).2.2 rfl⟩

/-- C9: when reward normalization is enabled, `Model.get_reward` returns
`(reward - mean(reward)) / max(variance(reward), epsilon)` element-wise —
dividing by the clamped batch variance, not by the standard deviation —
and when it is disabled the reward batch is returned unchanged. -/
theorem get_reward_normalization (epsilon : ℚ) (reward : List ℚ) :
    get_reward true epsilon reward =
      reward.map (fun r =>
        (r - batchMean reward) / max (batchVariance reward) epsilon) ∧
    get_reward false epsilon reward = reward := by
  constructor
  · simp [get_reward, moments, batchMean, batchVariance]
  · rfl

/-- C10: for every action spec with no user-supplied constant value and no
int-action masking (and no bounds on `bool` actions, which the spec format
never carries), `ConstantModel.core_act` fills every batch with: the
midpoint `min_value + 0.5 * (max_value - min_value)` when both bounds are
given; `min_value` when only the lower bound is given; `max_value` when
only the upper bound is given; zero otherwise — and `core_observe` always
reports no update. -/
theorem constant_core_act_bounds (enable_int_action_masking : Bool)
    (spec : ActionSpec) (n : ℕ)
    (hbool : spec.type = "bool" →
      spec.min_value = none ∧ spec.max_value = none)
    (hmask : ¬ (enable_int_action_masking = true ∧ spec.type = "int" ∧
      spec.num_values.isSome)) :
    (∀ mn mx, spec.min_value = some mn → spec.max_value = some mx →
      (core_act_action enable_int_action_masking none spec).toBatch n =
        some (List.replicate n (mn + (1/2) * (mx - mn)))) ∧
    (∀ mn, spec.min_value = some mn → spec.max_value = none →
      (core_act_action enable_int_action_masking none spec).toBatch n =
        some (List.replicate n mn)) ∧
    (∀ mx, spec.min_value = none → spec.max_value = some mx →
      (core_act_action enable_int_action_masking none spec).toBatch n =
        some (List.replicate n mx)) ∧
    (spec.min_value = none → spec.max_value = none →
      (core_act_action enable_int_action_masking none spec).toBatch n =
        some (List.replicate n 0)) ∧
    core_observe = false := by
  have hb : spec.type ≠ "bool" ∨
      (spec.min_value = none ∧ spec.max_value = none) := by
    by_cases h : spec.type = "bool"
    · exact Or.inr (hbool h)
    · exact Or.inl h
  refine ⟨fun mn mx hmn hmx => ?_, fun mn hmn hmx => ?_,
    fun mx hmn hmx => ?_, fun hmn hmx => ?_, rfl⟩
  · rcases hb with h | ⟨h1, _⟩
    · simp [core_act_action, hmask, hmn, hmx, h, ActResult.toBatch]
    · rw [h1] at hmn
      cases hmn
  · rcases hb with h | ⟨h1, _⟩
    · simp [core_act_action, hmask, hmn, hmx, h, ActResult.toBatch]
    · rw [h1] at hmn
      cases hmn
  · rcases hb with h | ⟨_, h2⟩
    · simp [core_act_action, hmask, hmn, hmx, h, ActResult.toBatch]
    · rw [h2] at hmx
      cases hmx
  · simp [core_act_action, hmask, hmn, hmx, ActResult.toBatch]

/-- Witness for C10 at a `'float'` action spec with bounds `[0, 1]`, no
masking, batch size 2: the action batch is the midpoint `1/2` twice, and
`core_observe` is `False`. -/
theorem constant_core_act_bounds_witness :
    (core_act_action false none ⟨"float", some 0, some 1, none⟩).toBatch 2 =
      some (List.replicate 2 ((0 : ℚ) + (1/2) * (1 - 0))) ∧
    core_observe = false :=
  ⟨(constant_core_act_bounds false ⟨"float", some 0, some 1, none⟩ 2
      (by intro h; exact absurd h (by decide))
      (by intro h; exact absurd h.1 (by decide))).1
      0 1 rfl rfl,
   rfl⟩

/-- Scanning a list extended by one element appends one application of the
step function to the last accumulator value. -/
theorem tf_scan_append_single (f : ℚ → ℚ × Bool → ℚ) (x : ℚ × Bool) :
    ∀ (xs : List (ℚ × Bool)) (initializer : ℚ),
      tf_scan f initializer (xs ++ [x]) =
        tf_scan f initializer xs ++
          [f ((tf_scan f initializer xs).getLastD initializer) x] := by
  intro xs
  induction xs with
  | nil => intro initializer; rfl
  | cons y ys ih =>
    intro initializer
    show f initializer y :: tf_scan f (f initializer y) (ys ++ [x]) =
      (f initializer y :: tf_scan f (f initializer y) ys) ++
        [f ((f initializer y ::
          tf_scan f (f initializer y) ys).getLastD initializer) x]
    rw [ih (f initializer y), List.cons_append, List.getLastD_cons]

/-- Zipping the reverses of two equal-length lists reverses the zip. -/
theorem zip_reverse_of_length_eq {α β : Type} :
    ∀ (xs : List α) (ys : List β), xs.length = ys.length →
      xs.reverse.zip ys.reverse = (xs.zip ys).reverse := by
  intro xs
  induction xs with
  | nil =>
    intro ys h
    cases ys with
    | nil => rfl
    | cons y ys => simp at h
  | cons x xs ih =>
    intro ys h
    cases ys with
    | nil => simp at h
    | cons y ys =>
      have hlen : xs.length = ys.length := by simpa using h
      simp only [List.reverse_cons, List.zip_cons_cons]
      rw [List.zip_append (by simpa using hlen), ih ys hlen]
      rfl

/-- The last element of a reversed list (with default) is the head. -/
theorem getLastD_reverse {α : Type} (l : List α) (d : α) :
    l.reverse.getLastD d = l.headD d := by
  cases l with
  | nil => rfl
  | cons a l =>
    simp [List.reverse_cons, List.getLastD_concat]

/-- Reversing the scan of the reversed sequence yields the backward
recurrence `discountedSpec`. -/
theorem tf_scan_reverse_eq_discountedSpec (discount final_reward : ℚ) :
    ∀ zs : List (ℚ × Bool),
      (tf_scan (fn_scan discount) final_reward zs.reverse).reverse =
        discountedSpec discount final_reward zs := by
  intro zs
  induction zs with
  | nil => rfl
  | cons rt rest ih =>
    obtain ⟨r, t⟩ := rt
    have hc : (tf_scan (fn_scan discount) final_reward
          rest.reverse).getLastD final_reward =
        (discountedSpec discount final_reward rest).headD final_reward := by
      rw [← ih, ← getLastD_reverse, List.reverse_reverse]
    simp only [List.reverse_cons]
    rw [tf_scan_append_single, List.reverse_append, ih, hc]
    simp only [List.reverse_cons, List.reverse_nil, List.nil_append,
      List.singleton_append, discountedSpec]
    congr 1
    unfold fn_scan
    by_cases ht : t
    · simp [ht]
    · simp [ht, mul_comm]

/-- C8: for every reward sequence with terminal flags of the same length,
`Model.tf_discounted_cumulative_reward` returns exactly the sequence `R`
defined backwards by `R_i = r_i` when `t_i` holds and
`R_i = r_i + discount * R_(i+1)` otherwise, with `R_n = final_reward`; a
terminal flag resets the accumulation, so later rewards never leak across
it. -/
theorem discounted_cumulative_reward_recurrence (reward : List ℚ)
    (terminal : List Bool) (discount final_reward : ℚ)
    (hlen : reward.length = terminal.length) :
    tf_discounted_cumulative_reward reward terminal discount final_reward =
      discountedSpec discount final_reward (reward.zip terminal) := by
  unfold tf_discounted_cumulative_reward
  rw [zip_reverse_of_length_eq reward terminal hlen]
  exact tf_scan_reverse_eq_discountedSpec discount final_reward
    (reward.zip terminal)

/-- Witness for C8 at rewards `[1, 2, 3]`, terminals
`[false, true, false]`, discount `1/2`, seed `4`: the code output matches
the backward recurrence, whose value is `[2, 2, 5]` — the terminal flag at
index 1 stops reward 3 and the seed from leaking into indices 0 and 1. -/
theorem discounted_cumulative_reward_recurrence_witness :
    tf_discounted_cumulative_reward [1, 2, 3] [false, true, false]
        (1/2) 4 =
      discountedSpec (1/2) 4 (([1, 2, 3] : List ℚ).zip
        [false, true, false]) ∧
    discountedSpec (1/2) 4 (([1, 2, 3] : List ℚ).zip
        [false, true, false]) = [2, 2, 5] :=
  ⟨discounted_cumulative_reward_recurrence [1, 2, 3] [false, true, false]
      (1/2) 4 rfl,
   by norm_num [discountedSpec, List.zip_cons_cons]⟩

/-- The per-variable summation builder is well-behaved. -/
theorem addPairs_builds : ∀ ps : List (ℕ × ℕ), Builds (addPairs ps) := by
  intro ps
  induction ps with
  | nil =>
    intro s out s2 h
    injection h with hout hst
    subst hout
    subst hst
    exact ⟨[], by simp, by simp, by simp, rfl⟩
  | cons p ps ih =>
    intro s out s2 h
    obtain ⟨created2, hn2, hctrl2, hout2, hc2⟩ :=
      ih (mkOp [p.1, p.2] s).2 (addPairs ps (mkOp [p.1, p.2] s).2).1
        (addPairs ps (mkOp [p.1, p.2] s).2).2 rfl
    injection h with hout hst
    subst hout
    subst hst
    refine ⟨⟨s.nextId, s.ctrl ++ [p.1, p.2]⟩ :: created2, ?_, ?_, ?_, hc2⟩
    · rw [hn2]
      simp [mkOp]
    · intro n hn
      rcases List.mem_cons.mp hn with h | h
      · subst h
        exact List.subset_append_left _ _
      · exact hctrl2 n h
    · intro a ha
      rcases List.mem_cons.mp ha with h | h
      · subst h
        exact ⟨⟨s.nextId, s.ctrl ++ [p.1, p.2]⟩, List.mem_cons_self _ _, rfl⟩
      · obtain ⟨n, hn, hid⟩ := hout2 a h
        exact ⟨n, List.mem_cons_of_mem _ hn, hid⟩

/-- The deterministic stub sub-optimizer is well-behaved. -/
theorem stub_builds : Builds stubOptimizer := by
  intro s out s2 h
  injection h with hout hst
  subst hout
  subst hst
  refine ⟨[⟨s.nextId, s.ctrl ++ []⟩], rfl, ?_, ?_, rfl⟩
  · intro n hn
    rw [List.mem_singleton] at hn
    subst hn
    exact List.subset_append_left _ _
  · intro a ha
    rw [List.mem_singleton] at ha
    subst ha
    exact ⟨⟨s.nextId, s.ctrl ++ []⟩, List.mem_singleton_self _, rfl⟩

/-- C2: in every invocation of `Plus.step` on well-behaved sub-optimizers,
every op created by `optimizer2.step` carries a dependency on every delta
of `optimizer1.step`, and every summation op on every delta of
`optimizer2.step`; hence in every valid schedule of the resulting graph,
all of `optimizer2`'s ops run strictly after `optimizer1`'s deltas are
complete (never before or concurrently), and the summing runs strictly
after `optimizer2`'s deltas are complete. -/
theorem plus_step_schedules_sequentially
    (optimizer1 optimizer2 : SubOptimizer)
    (h1 : Builds optimizer1) (h2 : Builds optimizer2)
    (s0 s1 s2 s3 : GraphState) (deltas1 deltas2 sums : List ℕ)
    (e1 : optimizer1 s0 = (deltas1, s1))
    (e2 : withControlDeps deltas1 optimizer2 s1 = (deltas2, s2))
    (e3 : withControlDeps deltas2 (addPairs (deltas1.zip deltas2)) s2 =
      (sums, s3)) :
    plus_step_graph optimizer1 optimizer2 s0 = (sums, s3) ∧
    ∀ sched, ValidSchedule s3.nodes sched →
      (∀ a ∈ deltas1, ∀ n ∈ s2.nodes.drop s1.nodes.length,
        sched.indexOf a < sched.indexOf n.id) ∧
      (∀ b ∈ deltas2, ∀ m ∈ sums, sched.indexOf b < sched.indexOf m) := by
  obtain ⟨created1, hn1, hctrl1, hout1, hc1⟩ := h1 s0 deltas1 s1 e1
  have e2' := e2
  simp only [withControlDeps] at e2'
  rw [Prod.mk.injEq] at e2'
  obtain ⟨hd2, hs2⟩ := e2'
  obtain ⟨created2, hn2, hctrl2, hout2, hc2⟩ :=
    h2 { s1 with ctrl := s1.ctrl ++ deltas1 } _ _ rfl
  have hn2' : s2.nodes = s1.nodes ++ created2 := by
    rw [← hs2]
    exact hn2
  have hdrop : s2.nodes.drop s1.nodes.length = created2 := by
    rw [hn2']
    simp
  have e3' := e3
  simp only [withControlDeps] at e3'
  rw [Prod.mk.injEq] at e3'
  obtain ⟨hd3, hs3⟩ := e3'
  obtain ⟨created3, hn3, hctrl3, hout3, hc3⟩ :=
    addPairs_builds (deltas1.zip deltas2)
      { s2 with ctrl := s2.ctrl ++ deltas2 } _ _ rfl
  have hn3' : s3.nodes = s2.nodes ++ created3 := by
    rw [← hs3]
    exact hn3
  constructor
  · simp only [plus_step_graph, e1, e2, e3]
  · intro sched hv
    obtain ⟨hmem, hdep⟩ := hv
    constructor
    · intro a ha n hn
      rw [hdrop] at hn
      obtain ⟨na, hna, hnaid⟩ := hout1 a ha
      have hna3 : na ∈ s3.nodes := by
        rw [hn3', hn2', hn1]
        exact List.mem_append_left _ (List.mem_append_left _
          (List.mem_append_right _ hna))
      have hasched : a ∈ sched := hnaid ▸ hmem na hna3
      have hn3mem : n ∈ s3.nodes := by
        rw [hn3', hn2']
        exact List.mem_append_left _ (List.mem_append_right _ hn)
      have hadep : a ∈ n.deps :=
        hctrl2 n hn (List.mem_append_right _ ha)
      exact hdep n hn3mem a hadep hasched
    · intro b hb m hm
      obtain ⟨nm, hnm, hnmid⟩ := hout3 m (by rw [hd3]; exact hm)
      obtain ⟨nb, hnb, hnbid⟩ := hout2 b (by rw [hd2]; exact hb)
      have hb3 : nb ∈ s3.nodes := by
        rw [hn3', hn2']
        exact List.mem_append_left _ (List.mem_append_right _ hnb)
      have hbsched : b ∈ sched := hnbid ▸ hmem nb hb3
      have hm3 : nm ∈ s3.nodes := by
        rw [hn3']
        exact List.mem_append_right _ hnm
      have hbdep : b ∈ nm.deps :=
        hctrl3 nm hnm (List.mem_append_right _ hb)
      have := hdep nm hm3 b hbdep hbsched
      rwa [hnmid] at this

/-- Witness for C2: two stub sub-optimizers from the empty graph. Op 0 is
optimizer1's delta, op 1 (optimizer2's delta) depends on 0, op 2 (the sum)
depends on 1; every valid schedule orders them accordingly. -/
theorem plus_step_schedules_sequentially_witness :
    plus_step_graph stubOptimizer stubOptimizer ⟨0, [], []⟩ =
      ([2], ⟨3, [⟨0, []⟩, ⟨1, [0]⟩, ⟨2, [1, 0, 1]⟩], []⟩) ∧
    ∀ sched, ValidSchedule (GraphState.nodes
        ⟨3, [⟨0, []⟩, ⟨1, [0]⟩, ⟨2, [1, 0, 1]⟩], []⟩) sched →
      (∀ a ∈ [0], ∀ n ∈ (GraphState.nodes
          ⟨2, [⟨0, []⟩, ⟨1, [0]⟩], []⟩).drop
          (GraphState.nodes ⟨1, [⟨0, []⟩], []⟩).length,
        sched.indexOf a < sched.indexOf n.id) ∧
      (∀ b ∈ [1], ∀ m ∈ [2], sched.indexOf b < sched.indexOf m) :=
  plus_step_schedules_sequentially stubOptimizer stubOptimizer
    stub_builds stub_builds ⟨0, [], []⟩ ⟨1, [⟨0, []⟩], []⟩
    ⟨2, [⟨0, []⟩, ⟨1, [0]⟩], []⟩
    ⟨3, [⟨0, []⟩, ⟨1, [0]⟩, ⟨2, [1, 0, 1]⟩], []⟩
    [0] [1] [2] rfl rfl rfl
